import Mathlib

/-
A shallow embedding of the moveobot webhook handlers (getUserData,
getCalendarData, editData) and of their helper functions, together with
theorems checking the specification claims against the embedded code.

JavaScript strings are modelled as Lean String; JS string truthiness is
modelled as "not equal to the empty string"; absent object fields are
modelled with Option; a JS function that can throw is modelled as a value
of Except String; calls against the external row store and event store
are collected in an explicit trace list.
-/

deriving instance DecidableEq for Except

namespace Moveobot

/-- Model of the source helper onlyDigits: the regex replace that removes
every non-digit character, keeping only ASCII digits. -/
def onlyDigits (s : String) : String :=
  String.mk (s.toList.filter Char.isDigit)

/-- Model of the JavaScript String.prototype.trim used by the handlers:
drop whitespace from both ends. -/
def sTrim (s : String) : String :=
  String.mk (((s.toList.dropWhile Char.isWhitespace).reverse.dropWhile
    Char.isWhitespace).reverse)

/-- Model of JavaScript toLowerCase restricted to ASCII letters, which is
all the handlers compare. -/
def sToLower (s : String) : String :=
  String.mk (s.toList.map Char.toLower)

/-- Collapse every maximal run of whitespace into a single underscore,
as the regex replace of whitespace-plus with an underscore does. The
Boolean argument records whether the previous character was whitespace. -/
def collapseWsAux : List Char → Bool → List Char
  | [], _ => []
  | c :: rest, prevWs =>
    if c.isWhitespace then
      (if prevWs then [] else ['_']) ++ collapseWsAux rest true
    else
      c :: collapseWsAux rest false

/-- Model of the source helper normalizeHeader: trim, lowercase, then
replace whitespace runs with underscores. -/
def normalizeHeader (s : String) : String :=
  String.mk (collapseWsAux (sToLower (sTrim s)).toList false)

/-- Boolean test that the first list is an initial segment of the second. -/
def isPrefOf : List Char → List Char → Bool
  | [], _ => true
  | _ :: _, [] => false
  | a :: as, b :: bs => a == b && isPrefOf as bs

/-- Boolean substring containment on character lists. -/
def hasSubList : List Char → List Char → Bool
  | [], needle => isPrefOf needle []
  | c :: rest, needle => isPrefOf needle (c :: rest) || hasSubList rest needle

/-- Model of JavaScript String.prototype.includes. -/
def containsSubstring (s sub : String) : Bool :=
  hasSubList s.toList sub.toList

/-- Model of JavaScript String.prototype.endsWith. -/
def endsWithStr (s suf : String) : Bool :=
  isPrefOf suf.toList.reverse s.toList.reverse

/-- Model of JavaScript slice with a negative start: the last n
characters of the string (the whole string when it is shorter). -/
def sliceLast (s : String) (n : Nat) : String :=
  String.mk (s.toList.drop (s.toList.length - n))

/-- Model of JavaScript slice from zero: the first n characters. -/
def sliceFirst (s : String) (n : Nat) : String :=
  String.mk (s.toList.take n)

/-- Model of the JavaScript or-else idiom on strings, where the empty
string is falsy. -/
def jsOr (a b : String) : String :=
  if a == "" then b else a

/-- Turn a possibly-empty string into an Option, matching the or-else
chains in the source that end in the undefined value. -/
def optOfStr (s : String) : Option String :=
  if s == "" then none else some s

/-- Split a character list at newline characters. Used only to state
claims that speak about the final line of a transcript. -/
def splitNl : List Char → List (List Char)
  | [] => [[]]
  | c :: rest =>
    match splitNl rest with
    | [] => [[]]
    | grp :: grps => if c = '\n' then [] :: grp :: grps else (c :: grp) :: grps

/-- The final line of a string, in the sense used by the specification
when it speaks of the flattened transcript's final line. -/
def finalLine (s : String) : String :=
  String.mk (((splitNl s.toList).getLast?).getD [])

/-
Conversation reconciler (editData route): message shapes and the
buildPlainConversation flattening, plus the inline double-check merge.
-/

/-- One entry of the responses array inside a brain_send message. -/
structure RespItem where
  text : Option String
  texts : Option (List String)
deriving DecidableEq

/-- Model of the MoveoMessage shape used by the editData route. The
msgText and msgResponses fields model the optional message object fields
text and responses. -/
structure MoveoMessage where
  event : Option String
  msgText : Option String
  msgResponses : Option (List RespItem)
deriving DecidableEq

/-- The per-response text extraction inside buildPlainConversation: the
text field when truthy, else the space-join of the texts array. -/
def respItemText (r : RespItem) : String :=
  let a := r.text.getD ""
  if a == "" then
    match r.texts with
    | some ts => String.intercalate " " ts
    | none => ""
  else a

/-- The line produced for one message by buildPlainConversation: user
turns become lines starting with the capital letter U, agent turns with
the capital letter A, everything else becomes the empty string. -/
def messageLine (m : MoveoMessage) : String :=
  if m.event == some "message:received" then
    "U: " ++ m.msgText.getD ""
  else if m.event == some "message:brain_send" then
    let joined :=
      match m.msgResponses with
      | some rs => String.intercalate " " ((rs.map respItemText).filter (fun t => t != ""))
      | none => ""
    if joined == "" then "" else "A: " ++ joined
  else ""

/-- Model of the source function buildPlainConversation. -/
def buildPlainConversation (messages : List MoveoMessage) : String :=
  String.intercalate "\n" ((messages.map messageLine).filter (fun t => t != ""))

/-- Model of the inline double-check block of the editData handler: when
the live text is non-empty and the flattened history does not end with a
user line holding it, append one synthetic user line. -/
def mergeLiveMessage (flat live : String) : String :=
  if live != "" && !(endsWithStr flat ("U: " ++ live)) then
    flat ++ "\nU: " ++ live
  else flat

/-
Google Sheets helpers of the editData route: row resolution, column
resolution and the composed applySheetUpdate.
-/

/-- The identifier object carried by an instruction: how to locate the
row, as a column key and a value. -/
structure IdentifierKV where
  key : String
  value : String
deriving DecidableEq

/-- The fallback identity passed to row resolution; in the source these
are the session variables, with the empty string standing for an absent
one. -/
structure FallbackIdentity where
  email : String
  phone : String
  name : String
deriving DecidableEq

/-- The phone-column test of findRowIndexByIdentifier: the normalized
header contains telefone or phone. -/
def isPhoneHeader (h : String) : Bool :=
  containsSubstring h "telefone" || containsSubstring h "phone"

/-- The cell read values at row i and column col, with the empty string
for an absent row or cell, as the source coalesces undefined. -/
def cellAt (values : List (List String)) (i col : Nat) : String :=
  (values.getD i []).getD col ""

/-- The inner loop of findRowIndexByIdentifier for one candidate:
locate the candidate's column among the headers, then scan the data rows
from index one; phone columns compare digits-only values for equality,
other columns compare trimmed lowercased values. -/
def searchCandidate (values : List (List String)) (headers : List String)
    (cand : IdentifierKV) : Option Nat :=
  match headers.findIdx? (fun h => h == normalizeHeader cand.key) with
  | none => none
  | some col =>
    let targetDigits := onlyDigits cand.value
    ((List.range values.length).drop 1).find? (fun i =>
      let cell := cellAt values i col
      if isPhoneHeader (headers.getD col "") then
        targetDigits != "" && onlyDigits cell == targetDigits
      else
        sToLower (sTrim cell) == sToLower (sTrim cand.value))

/-- Model of the source function findRowIndexByIdentifier: build the
candidate list (explicit identifier first, then email, phone twice and
name from the fallback identity) and return the first row index any
candidate finds; none models the minus-one sentinel. -/
def findRowIndexByIdentifier (values : List (List String)) (headers : List String)
    (identifier : Option IdentifierKV) (fallback : FallbackIdentity) : Option Nat :=
  let candidates : List IdentifierKV :=
    (match identifier with
      | some id =>
        if id.key != "" && id.value != "" then [⟨normalizeHeader id.key, id.value⟩] else []
      | none => []) ++
    (if fallback.email != "" then [⟨"email", fallback.email⟩] else []) ++
    (if fallback.phone != "" then [⟨"telefone", fallback.phone⟩, ⟨"phone", fallback.phone⟩] else []) ++
    (if fallback.name != "" then [⟨"nome", fallback.name⟩] else [])
  candidates.findSome? (searchCandidate values headers)

/-- The alias table of findColumnIndexByField. -/
def aliasTable : List (String × List String) :=
  [("telefone", ["telefone", "phone", "celular", "mobile", "user_phone", "telefone_do_usuario"]),
   ("email", ["email", "e-mail", "mail", "user_email"]),
   ("nome", ["nome", "name", "user_name", "full_name"])]

/-- Model of the source function findColumnIndexByField: exact normalized
match first, else the first alias, of the first alias group whose key the
wanted field contains, that appears among the headers. -/
def findColumnIndexByField (headers : List String) (field : String) : Option Nat :=
  if field == "" then none
  else
    let wanted := normalizeHeader field
    match headers.findIdx? (fun h => h == wanted) with
    | some idx => some idx
    | none =>
      aliasTable.findSome? (fun ka =>
        if containsSubstring wanted ka.1 then
          ka.2.findSome? (fun a => headers.findIdx? (fun h => h == a))
        else none)

/-- The calls made against the external row store and event store,
collected as an explicit trace. -/
inductive StoreCall where
  | sheetRead
  | sheetWrite (rowIndex colIndex : Nat) (value : String)
  | calInsert (calendarId : String) (summary : String) (start : String)
      (end_ : String) (timezone : String)
  | calList (calendarId : Option String) (q : Option String)
      (timeMin timeMax : Option String) (maxResults : Nat)
  | calPatch (calendarId : String) (eventId : String)
  | calDelete (calendarId : String) (eventId : String)
deriving DecidableEq

/-- The record returned by applySheetUpdate on success: one-based row and
column, the previous cell value and the written value. -/
structure SheetUpdateResult where
  row : Nat
  col : Nat
  old : String
  updated : String
deriving DecidableEq

/-- Model of the source function applySheetUpdate: read the whole table,
fail when it is empty, resolve the row by identifier plus fallback, the
column by field name, then write the single cell. The second component
traces the store calls made, the write included only when reached. -/
def applySheetUpdate (sheetValues : List (List String)) (field newValue : String)
    (identifier : Option IdentifierKV) (fallback : FallbackIdentity) :
    Except String SheetUpdateResult × List StoreCall :=
  let values := sheetValues
  if values.length = 0 then
    (.error "Planilha vazia ou intervalo inválido.", [.sheetRead])
  else
    let headers := (values.headD []).map normalizeHeader
    match findRowIndexByIdentifier values headers identifier fallback with
    | none => (.error "Linha do usuário não encontrada na planilha.", [.sheetRead])
    | some rowIndex =>
      match findColumnIndexByField headers field with
      | none =>
        (.error ("Coluna para o campo \"" ++ field ++ "\" não encontrada."), [.sheetRead])
      | some colIndex =>
        let oldVal := cellAt values rowIndex colIndex
        (.ok ⟨rowIndex + 1, colIndex + 1, oldVal, newValue⟩,
         [.sheetRead, .sheetWrite rowIndex colIndex newValue])

/-
Calendar payloads, the structured instruction and the action executor of
the editData route.
-/

/-- A calendar event as the event store returns it; only the fields the
handler reads are modelled. -/
structure CalEvent where
  id : Option String
  summary : Option String
deriving DecidableEq

/-- The event payload of a calendar instruction. -/
structure EventPayload where
  eventId : Option String
  summary : Option String
  description : Option String
  location : Option String
  attendees : Option (List String)
  start : Option String
  end_ : Option String
  timezone : Option String
  date : Option String
  calendarId : Option String
deriving DecidableEq

/-- The empty event payload, modelling the or-else with an empty object
that the handler applies to a missing event field. -/
def emptyEvent : EventPayload :=
  ⟨none, none, none, none, none, none, none, none, none, none⟩

/-- The structured instruction parsed from the classifier output. The
action field holds the raw action tag, possibly empty or unrecognized. -/
structure Instruction where
  action : String
  new_value : Option String
  field : Option String
  identifier : Option IdentifierKV
  event : Option EventPayload
deriving DecidableEq

/-- The session variables the handler extracts from the request body,
with the empty string for an absent one. -/
structure SessionVars where
  user_name : String
  user_email : String
  user_phone : String
  calendar_email : String
deriving DecidableEq

/-- The external world the editData handler acts against: the table the
row store returns, the search function of the event store, and the
events returned by insert and patch. -/
structure World where
  sheetValues : List (List String)
  calendarSearch : Option String → Option String → Option String → Option String → Nat → List CalEvent
  insertResult : CalEvent
  patchResult : CalEvent

/-- The configured default timezone fallback of the editData route. -/
def DEFAULT_TZ : String := "America/Sao_Paulo"

/-- JavaScript template interpolation of a possibly-undefined value. -/
def showOpt (o : Option String) : String := o.getD "undefined"

/-- The lower bound of the day window the handler builds from a date,
modelling the ISO rendering of the date at midnight UTC. -/
def dayStartIso (date : String) : String := date ++ "T00:00:00.000Z"

/-- The upper bound of the day window the handler builds from a date. -/
def dayEndIso (date : String) : String := date ++ "T23:59:59.000Z"

/-- The calendar scope resolution common to the calendar cases: explicit
event calendarId, else the session calendar email, else the session user
email, else undefined. -/
def calScope (ev : EventPayload) (sv : SessionVars) : Option String :=
  optOfStr (jsOr (jsOr (ev.calendarId.getD "") sv.calendar_email) sv.user_email)

/-- The search date of the update_event case: the payload date, else the
first ten characters of the start field. -/
def updateSearchDate (ev : EventPayload) : String :=
  jsOr (ev.date.getD "") (if (ev.start.getD "") != "" then sliceFirst (ev.start.getD "") 10 else "")

/-- The search date of the delete_event case: the payload date only. -/
def deleteSearchDate (ev : EventPayload) : String := ev.date.getD ""

/-- The lower bound passed to the event-store list call: present only
when a search date was resolved. -/
def dayWindowMin (date : String) : Option String :=
  if date != "" then some (dayStartIso date) else none

/-- The upper bound passed to the event-store list call. -/
def dayWindowMax (date : String) : Option String :=
  if date != "" then some (dayEndIso date) else none

/-- The calendarId the low-level calendar helpers fall back to. -/
def resolveCalId (o : Option String) : String := jsOr (o.getD "") "primary"

/-- The fallback identity the executor passes to applySheetUpdate. -/
def svFallback (sv : SessionVars) : FallbackIdentity :=
  ⟨sv.user_email, sv.user_phone, sv.user_name⟩

/-- The switch statement of the editData handler: one case per action
tag, each returning either an error (the thrown message) or the output
text, live instructions and session patch, together with the store call
trace of that case. -/
def switchResult (w : World) (instruction : Option Instruction) (sv : SessionVars) :
    Except String (String × String × List (String × String)) × List StoreCall :=
  let action := (instruction.map Instruction.action).getD ""
  if action == "update_phone" then
    let newVal := (instruction.bind Instruction.new_value).getD ""
    if newVal == "" then (.error "new_value ausente.", [])
    else
      match applySheetUpdate w.sheetValues "telefone" newVal
          (instruction.bind Instruction.identifier) (svFallback sv) with
      | (.error e, calls) => (.error e, calls)
      | (.ok _, calls) =>
        (.ok ("Pronto, " ++ jsOr sv.user_name "ok" ++ "! Atualizei seu telefone para " ++ newVal ++ ".",
              "### Dados do Usuário (atualizados)\n- Nome: " ++ jsOr sv.user_name "-" ++
                "\n- Email: " ++ jsOr sv.user_email "-" ++ "\n- Telefone: " ++ newVal,
              [("user_phone", newVal)]), calls)
  else if action == "update_email" then
    let newVal := (instruction.bind Instruction.new_value).getD ""
    if newVal == "" then (.error "new_value ausente.", [])
    else
      match applySheetUpdate w.sheetValues "email" newVal
          (instruction.bind Instruction.identifier) (svFallback sv) with
      | (.error e, calls) => (.error e, calls)
      | (.ok _, calls) =>
        (.ok ("Tudo certo! Atualizei seu e-mail para " ++ newVal ++ ".",
              "### Dados do Usuário (atualizados)\n- Nome: " ++ jsOr sv.user_name "-" ++
                "\n- Email: " ++ newVal ++ "\n- Telefone: " ++ jsOr sv.user_phone "-",
              [("user_email", newVal)]), calls)
  else if action == "update_name" then
    let newVal := (instruction.bind Instruction.new_value).getD ""
    if newVal == "" then (.error "new_value ausente.", [])
    else
      match applySheetUpdate w.sheetValues "nome" newVal
          (instruction.bind Instruction.identifier) (svFallback sv) with
      | (.error e, calls) => (.error e, calls)
      | (.ok _, calls) =>
        (.ok ("Nome atualizado para " ++ newVal ++ ".",
              "### Dados do Usuário (atualizados)\n- Nome: " ++ newVal ++
                "\n- Email: " ++ jsOr sv.user_email "-" ++ "\n- Telefone: " ++ jsOr sv.user_phone "-",
              [("user_name", newVal)]), calls)
  else if action == "update_sheet_field" then
    let field := (instruction.bind Instruction.field).getD ""
    let newVal := (instruction.bind Instruction.new_value).getD ""
    if field == "" || newVal == "" then (.error "field/new_value ausentes.", [])
    else
      match applySheetUpdate w.sheetValues field newVal
          (instruction.bind Instruction.identifier) (svFallback sv) with
      | (.error e, calls) => (.error e, calls)
      | (.ok res, calls) =>
        let normalized := normalizeHeader field
        (.ok ("Campo \"" ++ field ++ "\" atualizado para \"" ++ newVal ++ "\".",
              "### Atualização de planilha\n- " ++ field ++ ": " ++ newVal ++
                " (linha " ++ toString res.row ++ ")",
              (if ["telefone", "phone", "user_phone"].contains normalized then [("user_phone", newVal)] else []) ++
              (if ["email", "user_email"].contains normalized then [("user_email", newVal)] else []) ++
              (if ["nome", "name", "user_name"].contains normalized then [("user_name", newVal)] else [])),
         calls)
  else if action == "create_event" then
    let ev := (instruction.bind Instruction.event).getD emptyEvent
    if (ev.start.getD "") == "" || (ev.end_.getD "") == "" || (ev.summary.getD "") == "" then
      (.error "Para create_event: summary, start e end são obrigatórios.", [])
    else
      let tz := jsOr (ev.timezone.getD "") DEFAULT_TZ
      let calId := jsOr (jsOr (jsOr (ev.calendarId.getD "") sv.calendar_email) sv.user_email) "primary"
      let created := w.insertResult
      (.ok ("Evento criado: " ++ showOpt created.summary ++ " (" ++ showOpt created.id ++ ").",
            "### Agenda\n- Evento criado com sucesso.\n- ID: " ++ showOpt created.id,
            [("last_event_id", created.id.getD "")]),
       [.calInsert calId (ev.summary.getD "") (ev.start.getD "") (ev.end_.getD "") tz])
  else if action == "update_event" then
    let ev := (instruction.bind Instruction.event).getD emptyEvent
    let calendarId := calScope ev sv
    let eventId0 := ev.eventId.getD ""
    let doSearch := eventId0 == "" && (ev.summary.getD "") != ""
    let date := updateSearchDate ev
    let found :=
      if doSearch then
        w.calendarSearch calendarId (some (ev.summary.getD ""))
          (dayWindowMin date) (dayWindowMax date) 5
      else []
    let calls0 : List StoreCall :=
      if doSearch then
        [.calList calendarId (some (ev.summary.getD "")) (dayWindowMin date) (dayWindowMax date) 5]
      else []
    let eventId := if doSearch then (found.head?.bind CalEvent.id).getD "" else eventId0
    if eventId == "" then
      (.error "Não foi possível identificar o evento para atualizar.", calls0)
    else
      let updated := w.patchResult
      (.ok ("Evento atualizado: " ++ showOpt updated.summary ++ " (" ++ showOpt updated.id ++ ").",
            "### Agenda\n- Evento atualizado com sucesso.\n- ID: " ++ showOpt updated.id,
            [("last_event_id", updated.id.getD "")]),
       calls0 ++ [.calPatch (resolveCalId calendarId) eventId])
  else if action == "delete_event" then
    let ev := (instruction.bind Instruction.event).getD emptyEvent
    let calendarId := calScope ev sv
    let eventId0 := ev.eventId.getD ""
    let doSearch := eventId0 == "" && (ev.summary.getD "") != ""
    let date := deleteSearchDate ev
    let found :=
      if doSearch then
        w.calendarSearch calendarId (some (ev.summary.getD ""))
          (dayWindowMin date) (dayWindowMax date) 5
      else []
    let calls0 : List StoreCall :=
      if doSearch then
        [.calList calendarId (some (ev.summary.getD "")) (dayWindowMin date) (dayWindowMax date) 5]
      else []
    let eventId := if doSearch then (found.head?.bind CalEvent.id).getD "" else eventId0
    if eventId == "" then
      (.error "Não foi possível identificar o evento para excluir.", calls0)
    else
      (.ok ("Ok! Evento removido.",
            "### Agenda\n- Evento removido com sucesso.\n- ID: " ++ eventId,
            [("last_event_id", eventId)]),
       calls0 ++ [.calDelete (resolveCalId calendarId) eventId])
  else
    (.error "Ação não reconhecida pela IA.", [])

/-- The user-facing text the catch block around the switch builds from a
thrown message. -/
def catchText (msg : String) : String :=
  "Não consegui identificar ou executar a edição solicitada." ++
    (if msg == "" then "" else " Detalhe: " ++ msg)

/-- The result of the action-execution stage: the output text, the live
instructions markdown, the session patch accumulated for the caller, the
store calls made, and whether the case succeeded. -/
structure ExecResult where
  outputText : String
  liveInstructions : String
  sessionPatch : List (String × String)
  calls : List StoreCall
  ok : Bool
deriving DecidableEq

/-- The switch wrapped in its catch block: a thrown message is converted
to the generic could-not-execute text and the session patch is left
empty, while the calls already made are kept. -/
def executeAction (w : World) (instruction : Option Instruction) (sv : SessionVars) : ExecResult :=
  match switchResult w instruction sv with
  | (.ok (out, live, patch), calls) => ⟨out, live, patch, calls, true⟩
  | (.error e, calls) =>
    ⟨catchText e, "### Observação\n- Pedido de edição não pôde ser processado.", [], calls, false⟩

/-
The editData POST handler: history fetch, reconciliation, the empty
conversation guard, classification and dispatch.
-/

/-- The response envelope the editData handler returns: the HTTP status,
the flat live_instructions string, the responses texts used on the
hard-failure path, and the session variables carried by the response
body, which the handler never populates. -/
structure EditResponse where
  status : Nat
  liveInstructions : Option String
  responsesTexts : Option (List String)
  sessionVariables : Option (List (String × String))
deriving DecidableEq

/-- The observable outcome of one editData request: the HTTP response,
how many times the classifier was invoked, the store calls made, and the
session patch the executor accumulated in its local variable. -/
structure EditOutcome where
  response : EditResponse
  classifierCalls : Nat
  calls : List StoreCall
  sessionPatch : List (String × String)
deriving DecidableEq

/-- The fixed message returned when the reconciled conversation is
empty. -/
def emptyTranscriptMessage : String :=
  "Desculpe, não consegui recuperar o histórico da conversa para processar seu pedido. Por favor, tente novamente."

/-- The message log the handler works from: the fetched history when a
session id is present and the fetch succeeded, else the empty log, the
fetch error being caught and only logged. -/
def messagesOf (sessionId : Option String) (history : Except String (List MoveoMessage)) :
    List MoveoMessage :=
  match sessionId, history with
  | some _, .ok ms => ms
  | _, _ => []

/-- The reconciled conversation of one request: flatten the message log,
merge the trimmed live input text, and trim the result. -/
def reconciledConversation (sessionId : Option String)
    (history : Except String (List MoveoMessage)) (inputText : Option String) : String :=
  let lastUserMessageRealTime := sTrim (inputText.getD "")
  sTrim (mergeLiveMessage (buildPlainConversation (messagesOf sessionId history))
    lastUserMessageRealTime)

/-- Model of the editData POST handler. The history fetch outcome and
the classifier outcome are oracle inputs; the classifier outcome is
consulted only past the empty-conversation guard, which the
classifierCalls count records. -/
def editDataPost (sessionId : Option String) (history : Except String (List MoveoMessage))
    (inputText : Option String) (sv : SessionVars)
    (classifier : Except String Instruction) (w : World) : EditOutcome :=
  let conversation := reconciledConversation sessionId history inputText
  if conversation == "" then
    ⟨⟨200, none, some [emptyTranscriptMessage], none⟩, 0, [], []⟩
  else
    let instruction : Option Instruction :=
      match classifier with
      | .ok i => some i
      | .error _ => none
    let er := executeAction w instruction sv
    ⟨⟨200, some er.outputText, none, none⟩, 1, er.calls, er.sessionPatch⟩

/-
The getUserData POST handler.
-/

/-- The response of the getUserData handler: HTTP status, the conteudo
text, and the session variables (email, phone, name) returned on a hit. -/
structure UserDataResponse where
  status : Nat
  conteudo : String
  sessionVariables : Option (String × String × String)
deriving DecidableEq

/-- The not-found message of the getUserData handler. -/
def userNotFoundMessage : String :=
  "Usuário não encontrado com este número de telefone."

/-- Model of the getUserData POST handler: normalize the input to its
digits, keep the last eleven digits as the search key, and look for a
data row whose second column normalizes to the same eleven-digit key. -/
def getUserDataPost (inputText : Option String) (rows : List (List String)) : UserDataResponse :=
  let phoneNumberInput := inputText.getD ""
  if phoneNumberInput == "" then
    ⟨400, "Input de texto do usuário não encontrado.", none⟩
  else
    let normalizedPhone := onlyDigits phoneNumberInput
    let userPhoneKey := sliceLast normalizedPhone 11
    if rows.length ≤ 1 then ⟨200, "A planilha está vazia.", none⟩
    else
      match (rows.drop 1).find? (fun row =>
          let phoneFromSheet := row.getD 1 ""
          let sheetPhoneKey := sliceLast (onlyDigits phoneFromSheet) 11
          sheetPhoneKey == userPhoneKey && userPhoneKey.length == 11) with
      | none => ⟨200, userNotFoundMessage, none⟩
      | some row =>
        let nome := row.getD 0 ""
        let telefone := row.getD 1 ""
        let email := row.getD 2 ""
        ⟨200,
         "### Dados do Usuário\n- **Nome:** " ++ nome ++ "\n- **Telefone:** " ++ telefone ++
           "\n- **Email:** " ++ email,
         some (email, telefone, nome)⟩

/-
The getCalendarData POST handler.
-/

/-- One event of the calendar listing, with the optional dateTime and
date variants of its start. -/
structure CalendarListItem where
  summary : Option String
  startDateTime : Option String
  startDate : Option String
deriving DecidableEq

/-- The response of the getCalendarData handler. -/
structure AgendaResponse where
  status : Nat
  agenda : String
deriving DecidableEq

/-- The message returned when no user email reached the handler. -/
def missingEmailMessage : String :=
  "E-mail do usuário não foi passado para este webhook."

/-- The message returned when the listing is empty. -/
def noEventsMessage : String :=
  "Nenhum compromisso encontrado para os próximos dias."

/-- Model of the getCalendarData POST handler; the pt-BR locale
rendering of the start instant is abstracted as the raw start string,
which no claim depends on. -/
def getCalendarDataPost (userEmail : Option String) (items : List CalendarListItem) :
    AgendaResponse :=
  if (userEmail.getD "") == "" then ⟨200, missingEmailMessage⟩
  else if items.length = 0 then ⟨200, noEventsMessage⟩
  else
    let formatted := String.intercalate "\n" (items.map (fun e =>
      let start := jsOr (e.startDateTime.getD "") (e.startDate.getD "")
      if start == "" then ""
      else "- **" ++ showOpt e.summary ++ "**: " ++ start))
    ⟨200, "\n### Próximos Compromissos\n" ++ formatted⟩

/-- The closed action vocabulary of the editData switch. -/
def recognizedActions : List String :=
  ["update_phone", "update_email", "update_name", "update_sheet_field",
   "create_event", "update_event", "delete_event"]

/-
Helper lemmas.
-/

/-- Finding through a one-candidate list is just running that candidate. -/
theorem findSome?_singleton {α β : Type} (f : α → Option β) (a : α) :
    List.findSome? f [a] = f a := by
  cases h : f a <;> simp [List.findSome?_cons, h]

/-- Unfolding equation of splitNl on a cons cell. -/
theorem splitNl_cons (c : Char) (rest : List Char) :
    splitNl (c :: rest) =
      match splitNl rest with
      | [] => [[]]
      | grp :: grps => if c = '\n' then [] :: grp :: grps else (c :: grp) :: grps := rfl

/-- Splitting at newlines never yields an empty list of groups. -/
theorem splitNl_ne_nil (l : List Char) : splitNl l ≠ [] := by
  cases l with
  | nil => simp [splitNl]
  | cons c rest =>
    rw [splitNl_cons]
    cases h : splitNl rest with
    | nil => simp
    | cons g gs => by_cases hc : c = '\n' <;> simp [hc]

/-- A newline-free list splits into the single group holding it. -/
theorem splitNl_no_newline {l : List Char} (h : '\n' ∉ l) : splitNl l = [l] := by
  induction l with
  | nil => rfl
  | cons c rest ih =>
    have hc : c ≠ '\n' := by
      intro e
      exact h (by simp [e])
    have hr : '\n' ∉ rest := fun m => h (List.mem_cons_of_mem _ m)
    rw [splitNl_cons, ih hr]
    simp [hc]

/-- A list holding a newline splits into at least two groups. -/
theorem splitNl_len_ge_two {l : List Char} (h : '\n' ∈ l) : 2 ≤ (splitNl l).length := by
  induction l with
  | nil => simp at h
  | cons c rest ih =>
    rw [splitNl_cons]
    cases hr : splitNl rest with
    | nil => exact absurd hr (splitNl_ne_nil rest)
    | cons g gs =>
      by_cases hc : c = '\n'
      · simp [hc]
      · have hm : '\n' ∈ rest := by
          rcases List.mem_cons.mp h with h1 | h2
          · exact absurd h1.symm hc
          · exact h2
        have h2 := ih hm
        rw [hr] at h2
        simp only [List.length_cons] at h2
        simp [hc]
        omega

/-- The last group of a split only depends on what follows the last
newline: prepending material before a newline does not change it. -/
theorem getLast?_splitNl_append (xs ys : List Char) :
    (splitNl (xs ++ '\n' :: ys)).getLast? = (splitNl ys).getLast? := by
  induction xs with
  | nil =>
    rw [List.nil_append, splitNl_cons]
    cases hr : splitNl ys with
    | nil => exact absurd hr (splitNl_ne_nil ys)
    | cons g gs =>
      simp [List.getLast?_cons_cons]
  | cons c xs ih =>
    rw [List.cons_append, splitNl_cons]
    cases hr : splitNl (xs ++ '\n' :: ys) with
    | nil => exact absurd hr (splitNl_ne_nil _)
    | cons g gs =>
      rw [hr] at ih
      have hlen : 2 ≤ (splitNl (xs ++ '\n' :: ys)).length := splitNl_len_ge_two (by simp)
      rw [hr] at hlen
      have hgs : gs ≠ [] := by
        intro e
        rw [e] at hlen
        simp at hlen
      by_cases hc : c = '\n'
      · simp only [hc, if_pos, List.getLast?_cons_cons]
        simpa using ih
      · simp only [if_neg hc]
        cases gs with
        | nil => exact absurd rfl hgs
        | cons g2 gs2 =>
          rw [List.getLast?_cons_cons]
          rw [List.getLast?_cons_cons] at ih
          exact ih

/-- String concatenation concatenates the character lists. -/
theorem strToList_append (a b : String) : (a ++ b).toList = a.toList ++ b.toList := by
  cases a
  cases b
  rfl

/-- Appending a newline and then a newline-free user line makes that
user line the final line of the result. -/
theorem finalLine_append_line (flat live : String) (hnl : '\n' ∉ live.toList) :
    finalLine (flat ++ "\nU: " ++ live) = "U: " ++ live := by
  unfold finalLine
  have h1 : (flat ++ "\nU: " ++ live).toList = flat.toList ++ '\n' :: ("U: " ++ live).toList := by
    rw [strToList_append, strToList_append, strToList_append]
    simp
  rw [h1, getLast?_splitNl_append]
  have h2 : '\n' ∉ ("U: " ++ live).toList := by
    rw [strToList_append]
    intro hm
    rcases List.mem_append.mp hm with h | h
    · simp at h
    · exact hnl h
  rw [splitNl_no_newline h2]
  simp
  cases live
  rfl

/-
Claim C1.
-/

/-- Claim C1 counterexample: the claim says a phone-type comparison
matches whenever the last eleven digits of both sides agree, and in
particular that the identifier value +5511988887777 matches a stored
cell 11988887777; in findRowIndexByIdentifier the digit strings are
compared whole, so this identifier matches no row of a table storing
exactly that cell. -/
theorem C1_counterexample :
    findRowIndexByIdentifier
      [["nome", "telefone", "email"], ["Ana", "11988887777", "a@b.com"]]
      ["nome", "telefone", "email"]
      (some ⟨"telefone", "+5511988887777"⟩) ⟨"", "", ""⟩ = none := by
  decide

/-- Claim C1 amended: every row-resolution comparison made by
findRowIndexByIdentifier goes through searchCandidate on one of its
candidates, and for every candidate, whether the explicit identifier or
a fallback identity field: on a phone-type column (normalized header
containing telefone or phone) the scan of the data rows matches a cell
exactly when its full digits-only normalization equals that of the
candidate value, the candidate digits being non-empty, with no
truncation to the last eleven digits; on every non-phone column the
scan matches by case-insensitive, whitespace-trimmed exact string
equality; the resolver tries the explicit identifier candidate first
and only then the fallback identity, for every fallback; and the
last-eleven-digits comparison exists only in the getUserData flow,
where the lookup key +5511988887777 does find the stored cell
11988887777. -/
theorem C1_amended_phone_full_digits (values : List (List String)) (headers : List String) :
    (∀ (cand : IdentifierKV) (col : Nat),
      headers.findIdx? (fun h => h == normalizeHeader cand.key) = some col →
      isPhoneHeader (headers.getD col "") = true →
      searchCandidate values headers cand =
        ((List.range values.length).drop 1).find? (fun i =>
          onlyDigits cand.value != "" && onlyDigits (cellAt values i col) == onlyDigits cand.value)) ∧
    (∀ (cand : IdentifierKV) (col : Nat),
      headers.findIdx? (fun h => h == normalizeHeader cand.key) = some col →
      isPhoneHeader (headers.getD col "") = false →
      searchCandidate values headers cand =
        ((List.range values.length).drop 1).find? (fun i =>
          sToLower (sTrim (cellAt values i col)) == sToLower (sTrim cand.value))) ∧
    (∀ (id : IdentifierKV) (fallback : FallbackIdentity), id.key ≠ "" → id.value ≠ "" →
      findRowIndexByIdentifier values headers (some id) fallback =
        (match searchCandidate values headers ⟨normalizeHeader id.key, id.value⟩ with
          | some i => some i
          | none => findRowIndexByIdentifier values headers none fallback)) ∧
    (getUserDataPost (some "+5511988887777")
        [["nome", "telefone", "email"], ["Ana", "11988887777", "a@b.com"]]).conteudo =
      "### Dados do Usuário\n- **Nome:** Ana\n- **Telefone:** 11988887777\n- **Email:** a@b.com" := by
  refine ⟨fun cand col hcol hphone => ?_, fun cand col hcol hphone => ?_,
    fun id fallback hkey hval => ?_, rfl⟩
  · have hphone2 : isPhoneHeader (headers[col]?.getD "") = true := by
      simpa [List.getD] using hphone
    unfold searchCandidate
    simp only [hcol]
    simp [hphone2]
  · have hphone2 : isPhoneHeader (headers[col]?.getD "") = false := by
      simpa [List.getD] using hphone
    unfold searchCandidate
    simp only [hcol]
    simp [hphone2]
  · unfold findRowIndexByIdentifier
    cases hs : searchCandidate values headers ⟨normalizeHeader id.key, id.value⟩ <;>
      simp [hs, hkey, hval, List.findSome?_cons]

/-- Claim C1 witness: a phone identifier differing from the stored cell
only in punctuation and spacing, with equal full digit strings, does
match, at row one of a concrete table. -/
theorem C1_amended_witness :
    findRowIndexByIdentifier
      [["nome", "telefone", "email"], ["Ana", "5511988887777", "a@b.com"]]
      ["nome", "telefone", "email"]
      (some ⟨"telefone", "+55 11 98888-7777"⟩) ⟨"", "", ""⟩ = some 1 := by
  have h := (C1_amended_phone_full_digits
    [["nome", "telefone", "email"], ["Ana", "5511988887777", "a@b.com"]]
    ["nome", "telefone", "email"]).2.2.1
    ⟨"telefone", "+55 11 98888-7777"⟩ ⟨"", "", ""⟩ (by decide) (by decide)
  rw [h]
  decide

/-
Claim C2.
-/

/-- Claim C2 is a code bug: on a successful update_phone request the
handler computes the session patch for user_phone, and its own header
comment promises session variables in the return, but the response it
builds carries only the flat live_instructions text and no session
variables, so the caller cannot persist the new value. -/
theorem C2_sessionPatch_never_returned :
    (editDataPost (some "sess") (.ok []) (some "troque meu telefone para +5511999998888")
      ⟨"Ana", "ana@b.com", "11988887777", "ana@b.com"⟩
      (.ok ⟨"update_phone", some "+5511999998888", none, some ⟨"telefone", "11988887777"⟩, none⟩)
      ⟨[["nome", "telefone", "email"], ["Ana", "11988887777", "ana@b.com"]],
       fun _ _ _ _ _ => [], ⟨none, none⟩, ⟨none, none⟩⟩).sessionPatch =
      [("user_phone", "+5511999998888")] ∧
    (editDataPost (some "sess") (.ok []) (some "troque meu telefone para +5511999998888")
      ⟨"Ana", "ana@b.com", "11988887777", "ana@b.com"⟩
      (.ok ⟨"update_phone", some "+5511999998888", none, some ⟨"telefone", "11988887777"⟩, none⟩)
      ⟨[["nome", "telefone", "email"], ["Ana", "11988887777", "ana@b.com"]],
       fun _ _ _ _ _ => [], ⟨none, none⟩, ⟨none, none⟩⟩).calls =
      [.sheetRead, .sheetWrite 1 1 "+5511999998888"] ∧
    (editDataPost (some "sess") (.ok []) (some "troque meu telefone para +5511999998888")
      ⟨"Ana", "ana@b.com", "11988887777", "ana@b.com"⟩
      (.ok ⟨"update_phone", some "+5511999998888", none, some ⟨"telefone", "11988887777"⟩, none⟩)
      ⟨[["nome", "telefone", "email"], ["Ana", "11988887777", "ana@b.com"]],
       fun _ _ _ _ _ => [], ⟨none, none⟩, ⟨none, none⟩⟩).response.status = 200 ∧
    (editDataPost (some "sess") (.ok []) (some "troque meu telefone para +5511999998888")
      ⟨"Ana", "ana@b.com", "11988887777", "ana@b.com"⟩
      (.ok ⟨"update_phone", some "+5511999998888", none, some ⟨"telefone", "11988887777"⟩, none⟩)
      ⟨[["nome", "telefone", "email"], ["Ana", "11988887777", "ana@b.com"]],
       fun _ _ _ _ _ => [], ⟨none, none⟩, ⟨none, none⟩⟩).response.liveInstructions =
      some "Pronto, Ana! Atualizei seu telefone para +5511999998888." ∧
    (editDataPost (some "sess") (.ok []) (some "troque meu telefone para +5511999998888")
      ⟨"Ana", "ana@b.com", "11988887777", "ana@b.com"⟩
      (.ok ⟨"update_phone", some "+5511999998888", none, some ⟨"telefone", "11988887777"⟩, none⟩)
      ⟨[["nome", "telefone", "email"], ["Ana", "11988887777", "ana@b.com"]],
       fun _ _ _ _ _ => [], ⟨none, none⟩, ⟨none, none⟩⟩).response.sessionVariables = none ∧
    (editDataPost (some "sess") (.ok []) (some "troque meu telefone para +5511999998888")
      ⟨"Ana", "ana@b.com", "11988887777", "ana@b.com"⟩
      (.ok ⟨"update_phone", some "+5511999998888", none, some ⟨"telefone", "11988887777"⟩, none⟩)
      ⟨[["nome", "telefone", "email"], ["Ana", "11988887777", "ana@b.com"]],
       fun _ _ _ _ _ => [], ⟨none, none⟩, ⟨none, none⟩⟩).response.responsesTexts = none := by
  decide

/-
Claim C3.
-/

/-- Claim C3: for every edit request whose reconciled transcript is
empty after trimming, the classifier is never invoked, no store call is
made, and the response is the fixed could-not-retrieve-history message
with HTTP status 200. -/
theorem C3_empty_transcript_skips_classifier (sessionId : Option String)
    (history : Except String (List MoveoMessage)) (inputText : Option String)
    (sv : SessionVars) (classifier : Except String Instruction) (w : World)
    (h : reconciledConversation sessionId history inputText = "") :
    (editDataPost sessionId history inputText sv classifier w).classifierCalls = 0 ∧
    (editDataPost sessionId history inputText sv classifier w).response.status = 200 ∧
    (editDataPost sessionId history inputText sv classifier w).response.responsesTexts =
      some [emptyTranscriptMessage] ∧
    (editDataPost sessionId history inputText sv classifier w).calls = [] := by
  have heq : editDataPost sessionId history inputText sv classifier w =
      ⟨⟨200, none, some [emptyTranscriptMessage], none⟩, 0, [], []⟩ := by
    unfold editDataPost
    rw [h]
    rfl
  rw [heq]
  exact ⟨rfl, rfl, rfl, rfl⟩

/-- Claim C3 witness: a request with no session id, no history and no
live text reconciles to the empty transcript, and the handler then makes
zero classifier calls and returns the fixed fallback with status 200. -/
theorem C3_witness :
    (editDataPost none (.ok []) none ⟨"", "", "", ""⟩ (.error "down")
        ⟨[], fun _ _ _ _ _ => [], ⟨none, none⟩, ⟨none, none⟩⟩).classifierCalls = 0 ∧
    (editDataPost none (.ok []) none ⟨"", "", "", ""⟩ (.error "down")
        ⟨[], fun _ _ _ _ _ => [], ⟨none, none⟩, ⟨none, none⟩⟩).response.status = 200 ∧
    (editDataPost none (.ok []) none ⟨"", "", "", ""⟩ (.error "down")
        ⟨[], fun _ _ _ _ _ => [], ⟨none, none⟩, ⟨none, none⟩⟩).response.responsesTexts =
      some [emptyTranscriptMessage] ∧
    (editDataPost none (.ok []) none ⟨"", "", "", ""⟩ (.error "down")
        ⟨[], fun _ _ _ _ _ => [], ⟨none, none⟩, ⟨none, none⟩⟩).calls = [] :=
  C3_empty_transcript_skips_classifier none (.ok []) none ⟨"", "", "", ""⟩ (.error "down")
    ⟨[], fun _ _ _ _ _ => [], ⟨none, none⟩, ⟨none, none⟩⟩ (by rfl)

/-
Claim C4.
-/

/-- Claim C4: when the classifier call errors (which covers transport
failure and unparseable output, both thrown and caught as a null
instruction) or returns an action tag outside the recognized vocabulary,
the edit endpoint makes no store call at all, answers HTTP 200, and its
live_instructions text is the generic could-not-execute message. -/
theorem C4_classifier_failure_no_mutation_http200 (sessionId : Option String)
    (history : Except String (List MoveoMessage)) (inputText : Option String)
    (sv : SessionVars) (classifier : Except String Instruction) (w : World)
    (hconv : reconciledConversation sessionId history inputText ≠ "")
    (hbad : ∀ i, classifier = .ok i → i.action ∉ recognizedActions) :
    (editDataPost sessionId history inputText sv classifier w).response.status = 200 ∧
    (editDataPost sessionId history inputText sv classifier w).calls = [] ∧
    (editDataPost sessionId history inputText sv classifier w).response.liveInstructions =
      some (catchText "Ação não reconhecida pela IA.") ∧
    (editDataPost sessionId history inputText sv classifier w).sessionPatch = [] := by
  have hc : (reconciledConversation sessionId history inputText == "") = false := by
    simp [hconv]
  have heq : editDataPost sessionId history inputText sv classifier w =
      ⟨⟨200, some (catchText "Ação não reconhecida pela IA."), none, none⟩, 1, [], []⟩ := by
    simp only [editDataPost, hc, Bool.false_eq_true, if_false]
    cases classifier with
    | error e => rfl
    | ok i =>
      have hmem := hbad i rfl
      simp only [recognizedActions, List.mem_cons, List.not_mem_nil, or_false, not_or] at hmem
      obtain ⟨n1, n2, n3, n4, n5, n6, n7⟩ := hmem
      simp [executeAction, switchResult, n1, n2, n3, n4, n5, n6, n7]
  rw [heq]
  exact ⟨rfl, rfl, rfl, rfl⟩

/-- Claim C4 witness: a classifier answer with the unknown action tag,
on a request whose live text alone forms the transcript, yields status
200, an empty call trace and the generic message. -/
theorem C4_witness :
    (editDataPost none (.ok []) (some "oi") ⟨"", "", "", ""⟩
        (.ok ⟨"unknown", none, none, none, none⟩)
        ⟨[], fun _ _ _ _ _ => [], ⟨none, none⟩, ⟨none, none⟩⟩).response.status = 200 ∧
    (editDataPost none (.ok []) (some "oi") ⟨"", "", "", ""⟩
        (.ok ⟨"unknown", none, none, none, none⟩)
        ⟨[], fun _ _ _ _ _ => [], ⟨none, none⟩, ⟨none, none⟩⟩).calls = [] ∧
    (editDataPost none (.ok []) (some "oi") ⟨"", "", "", ""⟩
        (.ok ⟨"unknown", none, none, none, none⟩)
        ⟨[], fun _ _ _ _ _ => [], ⟨none, none⟩, ⟨none, none⟩⟩).response.liveInstructions =
      some (catchText "Ação não reconhecida pela IA.") ∧
    (editDataPost none (.ok []) (some "oi") ⟨"", "", "", ""⟩
        (.ok ⟨"unknown", none, none, none, none⟩)
        ⟨[], fun _ _ _ _ _ => [], ⟨none, none⟩, ⟨none, none⟩⟩).sessionPatch = [] :=
  C4_classifier_failure_no_mutation_http200 none (.ok []) (some "oi") ⟨"", "", "", ""⟩
    (.ok ⟨"unknown", none, none, none, none⟩)
    ⟨[], fun _ _ _ _ _ => [], ⟨none, none⟩, ⟨none, none⟩⟩
    (by decide)
    (fun i h => by cases h; decide)

/-
Claim C5.
-/

/-- Claim C5 counterexample: the claim keys the no-append case to the
final line being exactly the synthetic user line; the code only checks a
string suffix, so a transcript whose last line is an agent line ending
in the characters of a user line suppresses the append although its
final line is not the synthetic user line, and no line is appended. -/
theorem C5_counterexample :
    finalLine (buildPlainConversation
        [⟨some "message:brain_send", none, some [⟨some "responda U: ok", none⟩]⟩]) ≠ "U: ok" ∧
    mergeLiveMessage (buildPlainConversation
        [⟨some "message:brain_send", none, some [⟨some "responda U: ok", none⟩]⟩]) "ok" =
      buildPlainConversation
        [⟨some "message:brain_send", none, some [⟨some "responda U: ok", none⟩]⟩] := by
  decide

/-- Claim C5 amended: for every flattened transcript and non-empty,
newline-free live text, the reconciled transcript is unchanged exactly
when the flattened transcript, taken as one string, ends with the
synthetic user line; otherwise exactly one synthetic user line is
appended and becomes the new final line. -/
theorem C5_amended_endsWith_guard (flat live : String) (hne : live ≠ "")
    (hnl : '\n' ∉ live.toList) :
    (endsWithStr flat ("U: " ++ live) = true → mergeLiveMessage flat live = flat) ∧
    (endsWithStr flat ("U: " ++ live) = false →
      mergeLiveMessage flat live = flat ++ "\nU: " ++ live ∧
      finalLine (mergeLiveMessage flat live) = "U: " ++ live) := by
  constructor
  · intro he
    unfold mergeLiveMessage
    simp [he]
  · intro he
    have hm : mergeLiveMessage flat live = flat ++ "\nU: " ++ live := by
      unfold mergeLiveMessage
      simp [he, hne]
    exact ⟨hm, by rw [hm]; exact finalLine_append_line flat live hnl⟩

/-- Claim C5 witness: appending to a transcript that does not end with
the synthetic line adds exactly one line, which becomes the final line. -/
theorem C5_amended_witness :
    mergeLiveMessage "U: oi" "ok" = "U: oi" ++ "\nU: ok" ∧
    finalLine (mergeLiveMessage "U: oi" "ok") = "U: " ++ "ok" := by
  have h := (C5_amended_endsWith_guard "U: oi" "ok" (by decide) (by decide)).2 (by decide)
  exact ⟨h.1, h.2⟩

/-
Claim C6.
-/

/-- Claim C6 counterexample: the claim says applySheetUpdate fails with
the empty-table error on every table with at most one row; on a table
holding exactly the header row it fails with the row-not-found error
instead, the emptiness check only rejecting a table with no rows at
all. -/
theorem C6_counterexample :
    (applySheetUpdate [["nome", "telefone", "email"]] "telefone" "+5511999998888"
        none ⟨"a@b.com", "11988887777", "Ana"⟩).1 =
      .error "Linha do usuário não encontrada na planilha." ∧
    (applySheetUpdate [["nome", "telefone", "email"]] "telefone" "+5511999998888"
        none ⟨"a@b.com", "11988887777", "Ana"⟩).1 ≠
      .error "Planilha vazia ou intervalo inválido." := by
  decide

/-- Claim C6 amended: on every table with at most one row,
applySheetUpdate performs no cell write, only the read; it fails with
the empty-table error when the table has no rows, and with the
row-not-found error when it has exactly the header row. -/
theorem C6_amended_small_table_no_write (sheetValues : List (List String))
    (field newValue : String) (identifier : Option IdentifierKV) (fallback : FallbackIdentity)
    (h : sheetValues.length ≤ 1) :
    (applySheetUpdate sheetValues field newValue identifier fallback).2 = [.sheetRead] ∧
    (sheetValues.length = 0 →
      (applySheetUpdate sheetValues field newValue identifier fallback).1 =
        .error "Planilha vazia ou intervalo inválido.") ∧
    (sheetValues.length = 1 →
      (applySheetUpdate sheetValues field newValue identifier fallback).1 =
        .error "Linha do usuário não encontrada na planilha.") := by
  match sheetValues, h with
  | [], _ =>
    refine ⟨rfl, fun _ => rfl, fun hc => by simp at hc⟩
  | [hdr], _ =>
    have hrow : ∀ cand, searchCandidate [hdr] (List.map normalizeHeader hdr) cand = none := by
      intro cand
      unfold searchCandidate
      cases hidx : ((List.map normalizeHeader hdr).findIdx?
          (fun h => h == normalizeHeader cand.key)) with
      | none => rfl
      | some col => simp
    have hfr : findRowIndexByIdentifier [hdr] (List.map normalizeHeader hdr)
        identifier fallback = none := by
      unfold findRowIndexByIdentifier
      apply List.findSome?_eq_none_iff.mpr
      intro cand _
      exact hrow cand
    refine ⟨?_, fun hc => by simp at hc, fun _ => ?_⟩
    · unfold applySheetUpdate
      simp [hfr]
    · unfold applySheetUpdate
      simp [hfr]

/-- Claim C6 witness: a concrete header-only table produces only the
read call and the row-not-found error. -/
theorem C6_amended_witness :
    (applySheetUpdate [["nome", "telefone", "email"]] "email" "x@y.com"
        (some ⟨"telefone", "11988887777"⟩) ⟨"", "", ""⟩).2 = [.sheetRead] ∧
    (applySheetUpdate [["nome", "telefone", "email"]] "email" "x@y.com"
        (some ⟨"telefone", "11988887777"⟩) ⟨"", "", ""⟩).1 =
      .error "Linha do usuário não encontrada na planilha." := by
  have h := C6_amended_small_table_no_write [["nome", "telefone", "email"]] "email" "x@y.com"
    (some ⟨"telefone", "11988887777"⟩) ⟨"", "", ""⟩ (by decide)
  exact ⟨h.1, h.2.2 (by decide)⟩

/-
Claim C7.
-/

/-- Claim C7 counterexample: the claim says update and delete resolve
the search date from the payload date or, failing that, from the start
field; a delete_event carrying a start but no date searches with both
window bounds absent, an unbounded search, instead of the day window of
the start date, and then deletes the first match. -/
theorem C7_counterexample :
    (executeAction
      ⟨[], fun _ _ _ _ _ => [⟨some "evt1", some "Reunião"⟩], ⟨none, none⟩, ⟨none, none⟩⟩
      (some ⟨"delete_event", none, none, none,
        some ⟨none, some "Reunião", none, none, none, some "2025-01-02T10:00:00Z",
          none, none, none, none⟩⟩)
      ⟨"", "", "", ""⟩).calls =
    [.calList none (some "Reunião") none none 5, .calDelete "primary" "evt1"] := by
  decide

/-- Claim C7 amended: for update_event and delete_event with no event id
and a summary, the executor searches the event store for the summary
within the window derived from the resolved search date, which for
update_event is the payload date or, failing that, the date prefix of
start, but for delete_event is the payload date only, the window being
absent (unbounded) when no date resolves; the first match's id is used,
and when no usable id results the action fails with no patch or delete
call made. -/
theorem C7_amended_event_resolution (w : World) (sv : SessionVars) (ev : EventPayload)
    (hid : ev.eventId.getD "" = "") (hsum : (ev.summary.getD "") ≠ "") :
    (((w.calendarSearch (calScope ev sv) (some (ev.summary.getD ""))
          (dayWindowMin (updateSearchDate ev)) (dayWindowMax (updateSearchDate ev)) 5).head?.bind
          CalEvent.id).getD "" = "" →
      (executeAction w (some ⟨"update_event", none, none, none, some ev⟩) sv).ok = false ∧
      (executeAction w (some ⟨"update_event", none, none, none, some ev⟩) sv).calls =
        [.calList (calScope ev sv) (some (ev.summary.getD ""))
          (dayWindowMin (updateSearchDate ev)) (dayWindowMax (updateSearchDate ev)) 5]) ∧
    (∀ eid, ((w.calendarSearch (calScope ev sv) (some (ev.summary.getD ""))
          (dayWindowMin (updateSearchDate ev)) (dayWindowMax (updateSearchDate ev)) 5).head?.bind
          CalEvent.id).getD "" = eid → eid ≠ "" →
      (executeAction w (some ⟨"update_event", none, none, none, some ev⟩) sv).calls =
        [.calList (calScope ev sv) (some (ev.summary.getD ""))
          (dayWindowMin (updateSearchDate ev)) (dayWindowMax (updateSearchDate ev)) 5,
         .calPatch (resolveCalId (calScope ev sv)) eid]) ∧
    (((w.calendarSearch (calScope ev sv) (some (ev.summary.getD ""))
          (dayWindowMin (deleteSearchDate ev)) (dayWindowMax (deleteSearchDate ev)) 5).head?.bind
          CalEvent.id).getD "" = "" →
      (executeAction w (some ⟨"delete_event", none, none, none, some ev⟩) sv).ok = false ∧
      (executeAction w (some ⟨"delete_event", none, none, none, some ev⟩) sv).calls =
        [.calList (calScope ev sv) (some (ev.summary.getD ""))
          (dayWindowMin (deleteSearchDate ev)) (dayWindowMax (deleteSearchDate ev)) 5]) ∧
    (∀ eid, ((w.calendarSearch (calScope ev sv) (some (ev.summary.getD ""))
          (dayWindowMin (deleteSearchDate ev)) (dayWindowMax (deleteSearchDate ev)) 5).head?.bind
          CalEvent.id).getD "" = eid → eid ≠ "" →
      (executeAction w (some ⟨"delete_event", none, none, none, some ev⟩) sv).calls =
        [.calList (calScope ev sv) (some (ev.summary.getD ""))
          (dayWindowMin (deleteSearchDate ev)) (dayWindowMax (deleteSearchDate ev)) 5,
         .calDelete (resolveCalId (calScope ev sv)) eid]) := by
  refine ⟨fun h => ?_, fun eid heid hne => ?_, fun h => ?_, fun eid heid hne => ?_⟩
  · simp [executeAction, switchResult, hid, hsum, h]
  · subst heid
    simp [executeAction, switchResult, hid, hsum, hne]
  · simp [executeAction, switchResult, hid, hsum, h]
  · subst heid
    simp [executeAction, switchResult, hid, hsum, hne]

/-- Claim C7 witness: an update_event with a summary and a start but no
payload date searches within the day window of the start's date prefix
and patches the first match. -/
theorem C7_amended_witness :
    (executeAction
      ⟨[], fun _ _ _ _ _ => [⟨some "evt1", some "Reunião"⟩], ⟨none, none⟩, ⟨none, none⟩⟩
      (some ⟨"update_event", none, none, none,
        some ⟨none, some "Reunião", none, none, none, some "2025-01-02T10:00:00Z",
          none, none, none, none⟩⟩)
      ⟨"", "", "", ""⟩).calls =
    [.calList none (some "Reunião")
      (some "2025-01-02T00:00:00.000Z") (some "2025-01-02T23:59:59.000Z") 5,
     .calPatch "primary" "evt1"] :=
  (C7_amended_event_resolution
    ⟨[], fun _ _ _ _ _ => [⟨some "evt1", some "Reunião"⟩], ⟨none, none⟩, ⟨none, none⟩⟩
    ⟨"", "", "", ""⟩
    ⟨none, some "Reunião", none, none, none, some "2025-01-02T10:00:00Z", none, none, none, none⟩
    (by decide) (by decide)).2.1 "evt1" (by decide) (by decide)

/-
Claim C8.
-/

/-- Claim C8: a Sheets-mutating action missing its required payload
field (new_value for the phone, email and name updates; field or
new_value for the generic update), and a create_event missing summary,
start or end, fail inside the switch before any store call, the call
trace staying empty. -/
theorem C8_missing_required_fields_no_store_calls (w : World) (sv : SessionVars)
    (i : Instruction) :
    ((i.action = "update_phone" ∨ i.action = "update_email" ∨ i.action = "update_name") →
      i.new_value.getD "" = "" →
      (executeAction w (some i) sv).calls = [] ∧ (executeAction w (some i) sv).ok = false) ∧
    (i.action = "update_sheet_field" →
      (i.field.getD "" = "" ∨ i.new_value.getD "" = "") →
      (executeAction w (some i) sv).calls = [] ∧ (executeAction w (some i) sv).ok = false) ∧
    (i.action = "create_event" →
      ((i.event.getD emptyEvent).summary.getD "" = "" ∨
        (i.event.getD emptyEvent).start.getD "" = "" ∨
        (i.event.getD emptyEvent).end_.getD "" = "") →
      (executeAction w (some i) sv).calls = [] ∧ (executeAction w (some i) sv).ok = false) := by
  refine ⟨fun ha hm => ?_, fun ha hm => ?_, fun ha hm => ?_⟩
  · rcases ha with h | h | h <;> simp [executeAction, switchResult, h, hm]
  · rcases hm with h | h <;> simp [executeAction, switchResult, ha, h]
  · rcases hm with h | h | h <;> simp [executeAction, switchResult, ha, h]

/-- Claim C8 witness: an update_phone with no new_value, an
update_sheet_field with no field, and a create_event with no start all
fail with an empty call trace against a concrete world. -/
theorem C8_witness :
    ((executeAction ⟨[], fun _ _ _ _ _ => [], ⟨none, none⟩, ⟨none, none⟩⟩
        (some ⟨"update_phone", none, none, none, none⟩) ⟨"", "", "", ""⟩).calls = [] ∧
      (executeAction ⟨[], fun _ _ _ _ _ => [], ⟨none, none⟩, ⟨none, none⟩⟩
        (some ⟨"update_phone", none, none, none, none⟩) ⟨"", "", "", ""⟩).ok = false) ∧
    ((executeAction ⟨[], fun _ _ _ _ _ => [], ⟨none, none⟩, ⟨none, none⟩⟩
        (some ⟨"update_sheet_field", some "x", none, none, none⟩) ⟨"", "", "", ""⟩).calls = [] ∧
      (executeAction ⟨[], fun _ _ _ _ _ => [], ⟨none, none⟩, ⟨none, none⟩⟩
        (some ⟨"update_sheet_field", some "x", none, none, none⟩) ⟨"", "", "", ""⟩).ok = false) ∧
    ((executeAction ⟨[], fun _ _ _ _ _ => [], ⟨none, none⟩, ⟨none, none⟩⟩
        (some ⟨"create_event", none, none, none,
          some ⟨none, some "Reunião", none, none, none, none, some "2025-01-02T11:00:00Z",
            none, none, none⟩⟩) ⟨"", "", "", ""⟩).calls = [] ∧
      (executeAction ⟨[], fun _ _ _ _ _ => [], ⟨none, none⟩, ⟨none, none⟩⟩
        (some ⟨"create_event", none, none, none,
          some ⟨none, some "Reunião", none, none, none, none, some "2025-01-02T11:00:00Z",
            none, none, none⟩⟩) ⟨"", "", "", ""⟩).ok = false) :=
  ⟨(C8_missing_required_fields_no_store_calls ⟨[], fun _ _ _ _ _ => [], ⟨none, none⟩, ⟨none, none⟩⟩
      ⟨"", "", "", ""⟩ ⟨"update_phone", none, none, none, none⟩).1 (Or.inl rfl) (by decide),
   (C8_missing_required_fields_no_store_calls ⟨[], fun _ _ _ _ _ => [], ⟨none, none⟩, ⟨none, none⟩⟩
      ⟨"", "", "", ""⟩ ⟨"update_sheet_field", some "x", none, none, none⟩).2.1 rfl
      (Or.inl (by decide)),
   (C8_missing_required_fields_no_store_calls ⟨[], fun _ _ _ _ _ => [], ⟨none, none⟩, ⟨none, none⟩⟩
      ⟨"", "", "", ""⟩ ⟨"create_event", none, none, none,
        some ⟨none, some "Reunião", none, none, none, none, some "2025-01-02T11:00:00Z",
          none, none, none⟩⟩).2.2 rfl (Or.inr (Or.inl (by decide)))⟩

/-
Claim C9.
-/

/-- Claim C9 counterexample: the claim says both simple lookup flows
answer HTTP 400 when their required input is missing; the calendar
listing with no user email answers its clear message with HTTP status
200, not 400. -/
theorem C9_counterexample :
    (getCalendarDataPost none []).status = 200 ∧
    (getCalendarDataPost none []).status ≠ 400 ∧
    (getCalendarDataPost none []).agenda = missingEmailMessage := by
  decide

/-- Claim C9 amended: the user lookup with missing or empty input text
answers its clear message with HTTP 400; the calendar listing with
missing or empty user email answers its clear message with HTTP 200. -/
theorem C9_amended_status_codes :
    (∀ rows : List (List String), (getUserDataPost none rows).status = 400 ∧
      (getUserDataPost none rows).conteudo = "Input de texto do usuário não encontrado.") ∧
    (∀ rows : List (List String), (getUserDataPost (some "") rows).status = 400) ∧
    (∀ items : List CalendarListItem, (getCalendarDataPost none items).status = 200 ∧
      (getCalendarDataPost none items).agenda = missingEmailMessage) ∧
    (∀ items : List CalendarListItem, (getCalendarDataPost (some "") items).status = 200 ∧
      (getCalendarDataPost (some "") items).agenda = missingEmailMessage) := by
  refine ⟨fun rows => ?_, fun rows => ?_, fun items => ?_, fun items => ?_⟩ <;>
    simp [getUserDataPost, getCalendarDataPost]

/-
Claim C10.
-/

/-- Claim C10: when the digits-only normalization of the lookup text has
fewer than eleven digits, the eleven-digit guard on the search key fails
for every row, so the user lookup answers the not-found message whatever
the data rows hold, even one storing the identical shorter phone. -/
theorem C10_short_key_never_matches (t : String) (rows : List (List String))
    (ht : t ≠ "") (hlen : (onlyDigits t).length < 11) (hrows : 2 ≤ rows.length) :
    (getUserDataPost (some t) rows).status = 200 ∧
    (getUserDataPost (some t) rows).conteudo = userNotFoundMessage := by
  have hkeylen : (sliceLast (onlyDigits t) 11).length = (onlyDigits t).length := by
    unfold sliceLast
    have h0 : (onlyDigits t).toList.length - 11 = 0 := by
      have h1 : (onlyDigits t).toList.length = (onlyDigits t).length := rfl
      omega
    rw [h0, List.drop_zero]
    rfl
  have hr : ¬ rows.length ≤ 1 := by omega
  have hfind : List.find? (fun row =>
      sliceLast (onlyDigits (row[1]?.getD "")) 11 == sliceLast (onlyDigits t) 11 &&
        (sliceLast (onlyDigits t) 11).length == 11) rows.tail = none := by
    apply List.find?_eq_none.mpr
    intro row _
    simp [hkeylen]
    omega
  simp [getUserDataPost, ht, hr, hfind]

/-- Claim C10 witness: the lookup text 12345 normalizes to five digits,
and even a table storing the identical phone value 12345 answers the
not-found message. -/
theorem C10_witness :
    (getUserDataPost (some "12345")
        [["nome", "telefone", "email"], ["Ana", "12345", "a@b.com"]]).status = 200 ∧
    (getUserDataPost (some "12345")
        [["nome", "telefone", "email"], ["Ana", "12345", "a@b.com"]]).conteudo =
      userNotFoundMessage :=
  C10_short_key_never_matches "12345"
    [["nome", "telefone", "email"], ["Ana", "12345", "a@b.com"]]
    (by decide) (by decide) (by decide)

end Moveobot
